import Mathlib

/-!
Shallow embedding of `struct2seq.py`, a batch CLI tool that extracts chain and
peptide amino-acid sequences from PDB or mmCIF structure files and writes them
as FASTA records.

Python values that flow through the metadata extraction code (header dicts,
CIF field dicts) are modelled by `PyVal`; Python `None` is `PyVal.none`,
Python floats are modelled as rationals.  Fallible Python operations (dict
subscription, the `in` operator on a non-container, `"%.2f"`-style formatting
of a non-number) return `Except Unit`, the error standing for the raised
`TypeError`/`KeyError`/`ValueError`.

The external Biopython library (PDB/mmCIF parsing, `PPBuilder` peptide
segmentation, FASTA serialization conventions) is a black box for this
program: its outputs are modelled as inputs of the embedded pipeline
(`ParseResult`, the peptide sequence lists stored in each `Chain`).
-/

namespace Struct2Seq

/-- Powers of ten as integers. -/
def tenPow : Nat → Int
  | 0 => 1
  | n + 1 => 10 * tenPow n

/-- An exact decimal number `mant / 10 ^ exp`: the model of the Python
floats that flow through this program (resolution values).  The source
values are decimal literals and decimal strings of few digits, which IEEE
doubles carry exactly through the operations the program performs, so the
exact-decimal abstraction is faithful on every value the program meets. -/
structure Dec where
  mant : Int
  exp : Nat
deriving DecidableEq

/-- Strip factors of ten so that equal decimal values get one
representation (Python float values are canonical). -/
def decNorm : Int → Nat → Dec
  | m, 0 => ⟨m, 0⟩
  | m, e + 1 => if m % 10 = 0 then decNorm (m / 10) e else ⟨m, e + 1⟩

/-- The float literal `-1.0` of struct2seq.py lines 28 and 50. -/
def negOne : Dec := ⟨-1, 0⟩

/-- Python values reachable in the metadata-extraction code paths:
`None`, strings, floats (modelled as exact decimals) and string-keyed
dicts. -/
inductive PyVal where
  | none : PyVal
  | str (s : String) : PyVal
  | float (q : Dec) : PyVal
  | dict (entries : List (String × PyVal)) : PyVal

/-- A Python dict with string keys, as an association list in insertion order. -/
abbrev PyDict := List (String × PyVal)

/-- Python `d.get(k)`: the value at `k`, or `None` when the key is absent. -/
def dictGet (d : PyDict) (k : String) : PyVal :=
  match d.find? (fun p => p.1 == k) with
  | some p => p.2
  | Option.none => PyVal.none

/-- Python `k in d` for a dict `d`. -/
def dictHasKey (d : PyDict) (k : String) : Bool :=
  d.any (fun p => p.1 == k)

/-- Boolean prefix test on character lists. -/
def charsPrefixB : List Char → List Char → Bool
  | [], _ => true
  | _ :: _, [] => false
  | a :: as, b :: bs => a == b && charsPrefixB as bs

/-- Boolean substring test: does `pat` occur consecutively in the list? -/
def charsContainB (pat : List Char) : List Char → Bool
  | [] => pat.isEmpty
  | c :: cs => charsPrefixB pat (c :: cs) || charsContainB pat cs

/-- Substring containment on strings (Python `pat in s` for strings). -/
def strContains (s pat : String) : Bool :=
  charsContainB pat.toList s.toList

/-- Python `k in v` for an arbitrary value `v`: key membership for dicts,
substring containment for strings, and a raised `TypeError` (the `.error`
case) when `v` is `None` or a float, which are not containers. -/
def pyIn (k : String) (v : PyVal) : Except Unit Bool :=
  match v with
  | PyVal.dict d => Except.ok (dictHasKey d k)
  | PyVal.str s => Except.ok (strContains s k)
  | _ => Except.error ()

/-- Python `v[k]` for a string key `k`: dict lookup (raising `KeyError` when
absent), and a raised `TypeError` for every non-dict value. -/
def pySubscript (v : PyVal) (k : String) : Except Unit PyVal :=
  match v with
  | PyVal.dict d =>
    match d.find? (fun p => p.1 == k) with
    | some p => Except.ok p.2
    | Option.none => Except.error ()
  | _ => Except.error ()

/-- Value of `''.join`-free digit-string folding: the natural number denoted
by a list of decimal digit characters. -/
def digitsToNat (ds : List Char) : Nat :=
  ds.foldl (fun a c => a * 10 + (c.toNat - 48)) 0

/-- Powers of ten as naturals. -/
def tenPowNat : Nat → Nat
  | 0 => 1
  | n + 1 => 10 * tenPowNat n

/-- Python `float(s)` on a string, for the plain decimal forms
`[+-]?digits`, `[+-]?digits.digits`, `[+-]?.digits` and `[+-]?digits.`
(scientific notation, `inf`, `nan` and surrounding whitespace, which never
occur in mmCIF resolution fields, are not modelled and count as failures). -/
def parsePyFloat (s : String) : Option Dec :=
  let cs := s.toList
  let signed : Int × List Char :=
    match cs with
    | '-' :: t => (-1, t)
    | '+' :: t => (1, t)
    | _ => (1, cs)
  let sign := signed.1
  let body := signed.2
  let intPart := body.takeWhile Char.isDigit
  let rest := body.dropWhile Char.isDigit
  match rest with
  | [] =>
    if intPart.isEmpty then Option.none
    else some (decNorm (sign * digitsToNat intPart) 0)
  | '.' :: frac =>
    if frac.all Char.isDigit && !(intPart.isEmpty && frac.isEmpty) then
      some (decNorm
        (sign * (digitsToNat intPart * tenPowNat frac.length + digitsToNat frac))
        frac.length)
    else Option.none
  | _ => Option.none

/-- Python `float(v)` as used under the bare `except:` in
`get_info_from_cif_dict`: any conversion failure (`None`, a dict, an
unparsable string) is reported as `Option.none` and is caught by the caller. -/
def pyFloat (v : PyVal) : Option Dec :=
  match v with
  | PyVal.float q => some q
  | PyVal.str s => parsePyFloat s
  | _ => Option.none

/-- Embedding of `get_info_from_header(structure)` (struct2seq.py lines
21 to 41).  The initial defaults `name=""`, `organism=""`, `resolution=-1.0`
are dead stores for `name` and `resolution`, which are unconditionally
overwritten by `structure.header.get(...)` (returning `None` when the key is
absent); only `organism` keeps its `""` default.  The `.error` result is the
`TypeError` raised by evaluating `'organism_scientific' in
structure.header['source'].get('1')` when that `.get` returns a
non-container, and by the subsequent string subscription when it returns a
string. -/
def get_info_from_header (header : PyDict) : Except Unit (PyVal × PyVal × PyVal) :=
  let name := dictGet header "name"
  let resolution := dictGet header "resolution"
  if dictHasKey header "organism_scientific" then
    Except.ok (name, dictGet header "organism_scientific", resolution)
  else if dictHasKey header "source" then
    match dictGet header "source" with
    | PyVal.dict src =>
      match pyIn "organism_scientific" (dictGet src "1") with
      | Except.error e => Except.error e
      | Except.ok true =>
        match pySubscript (dictGet src "1") "organism_scientific" with
        | Except.error e => Except.error e
        | Except.ok org => Except.ok (name, org, resolution)
      | Except.ok false => Except.ok (name, PyVal.str "", resolution)
    | _ => Except.ok (name, PyVal.str "", resolution)
  else
    Except.ok (name, PyVal.str "", resolution)

/-- Embedding of `get_info_from_cif_dict(filename)` (struct2seq.py lines
43 to 61), applied to the flat field dict that `MMCIF2Dict` reads from the
file.  `name` and `organism` are the raw `.get` results (`None` when the
field is absent); `resolution` keeps its `-1.0` default whenever
`float(...)` raises, because of the bare `try/except: pass`. -/
def get_info_from_cif_dict (cif_dict : PyDict) : PyVal × PyVal × PyVal :=
  let name := dictGet cif_dict "_entity_name_com.name"
  let organism := dictGet cif_dict "_pdbx_entity_src_syn.organism_scientific"
  let resolution : Dec :=
    match pyFloat (dictGet cif_dict "_reflns.d_resolution_high") with
    | some q => q
    | Option.none => negOne
  (name, organism, PyVal.float resolution)

/-- Index of the last occurrence of `c` in `cs`, or `-1` when absent
(the sentinel convention of CPython's `rfind`). -/
def lastIdxOf (c : Char) (cs : List Char) : Int :=
  cs.enum.foldl (fun acc p => if p.2 = c then (p.1 : Int) else acc) (-1)

/-- Embedding of `os.path.basename` on POSIX paths: the part after the last
slash. -/
def basename (p : String) : String :=
  let cs := p.toList
  String.mk (cs.drop (lastIdxOf '/' cs + 1).toNat)

/-- Embedding of `os.path.splitext` on POSIX paths: split off the suffix
starting at the last dot of the final path component, unless every character
of that component before the dot is itself a dot (so hidden files such as
`.bashrc` keep no extension). -/
def splitext (p : String) : String × String :=
  let cs := p.toList
  let sepIdx := lastIdxOf '/' cs
  let dotIdx := lastIdxOf '.' cs
  if sepIdx < dotIdx then
    let pre := (cs.take dotIdx.toNat).drop (sepIdx + 1).toNat
    if pre.any (fun c => c ≠ '.') then
      (String.mk (cs.take dotIdx.toNat), String.mk (cs.drop dotIdx.toNat))
    else (p, "")
  else (p, "")

/-- The `struct_name` of struct2seq.py line 66:
`os.path.splitext(os.path.basename(filename))[0]`, the base name of the
input file with directory and extension removed. -/
def structName (filename : String) : String :=
  (splitext (basename filename)).1

/-- A chain as the sequence writer sees it: its Biopython id and the
one-letter sequences of the peptides that `PPBuilder().build_peptides`
yields for it, in discovery order.  Peptide segmentation is performed by the
external library, so the peptide list is part of the model input. -/
structure Chain where
  id : String
  peptides : List String

/-- A model of the parsed structure: its integer id and its chains in file
order. -/
structure SModel where
  id : Int
  chains : List Chain

/-- The parsed structure: its models in file order and, for PDB-origin
parses, the header mapping populated by `PDBParser`. -/
structure Structure where
  models : List SModel
  header : PyDict

/-- Outcome of the trial parsing in `write_seqs` (lines 67 to 80), performed
by the external parsers: `PDBParser` succeeds; or it raises and
`MMCIFParser` succeeds (in which case `MMCIF2Dict` re-reads the file into
`cif_dict`); or both raise. -/
inductive ParseResult where
  | pdbOk (s : Structure)
  | cifOk (s : Structure) (cif_dict : PyDict)
  | bothFail

/-- A Biopython `SeqRecord` as this program builds them: id, sequence and
description string. -/
structure SeqRecord where
  id : String
  seq : String
  description : String

/-- Round a decimal to an integer number of hundredths, ties to even
(the rounding of CPython float formatting; the claims only exercise exactly
representable values). -/
def round2 (d : Dec) : Int :=
  let N := d.mant * 100
  let D := tenPow d.exp
  let q := N.fdiv D
  let r := N.fmod D
  if 2 * r < D then q
  else if 2 * r > D then q + 1
  else if q % 2 = 0 then q else q + 1

/-- Python float formatting to two decimal places, as `format` does for the
`.2f` code (negative zero of IEEE floats is not modelled). -/
def format2f (d : Dec) : String :=
  let n := round2 d
  let a := n.natAbs
  (if n < 0 then "-" else "")
    ++ toString (a / 100) ++ "."
    ++ (if a % 100 < 10 then "0" else "") ++ toString (a % 100)

/-- Python `str(v)` restricted to what the description format needs:
`None` prints as `None`, strings print as themselves.  The float and dict
renderings are abstractions (never exercised by the description line, whose
name and organism fields are always `None` or strings in practice). -/
def pyStr : PyVal → String
  | PyVal.none => "None"
  | PyVal.str s => s
  | PyVal.float q => format2f q
  | PyVal.dict _ => "<dict>"

/-- The description string of struct2seq.py line 88 for a float resolution
value `q`. -/
def descString (name organism : PyVal) (q : Dec) : String :=
  "| " ++ pyStr name ++ " | " ++ pyStr organism ++ " | Resolution " ++ format2f q ++ " A"

/-- Embedding of struct2seq.py line 88,
`"| ... | Resolution ... A".format(name, organism, resolution)`: the `.2f`
format code accepts a number and raises for `None`, strings and dicts
(the `.error` case). -/
def format_description (name organism resolution : PyVal) : Except Unit String :=
  match resolution with
  | PyVal.float q => Except.ok (descString name organism q)
  | _ => Except.error ()

/-- The `base_id` of struct2seq.py line 96:
`"<struct_name>.<model_id>_<chain_id>"` with the model id in decimal. -/
def baseId (struct_name : String) (model_id : Int) (chain_id : String) : String :=
  struct_name ++ "." ++ toString model_id ++ "_" ++ chain_id

/-- The peptide-level records the loop of lines 98 to 102 appends for one
chain: one record per peptide, ids `<base_id>.<peptide_index>` with indices
from `enumerate`, all sharing the description. -/
def peptideRecordsOfChain (struct_name desc : String) (model_id : Int) (c : Chain) :
    List SeqRecord :=
  c.peptides.enum.map (fun p =>
    { id := baseId struct_name model_id c.id ++ "." ++ toString p.1
      seq := p.2
      description := desc })

/-- The chain-level record of lines 97 to 106 for one chain: `chain_seq`
starts empty and accumulates every peptide sequence in order, so the record
sequence is their concatenation. -/
def chainRecordOfChain (struct_name desc : String) (model_id : Int) (c : Chain) : SeqRecord :=
  { id := baseId struct_name model_id c.id
    seq := String.join c.peptides
    description := desc }

/-- `chain_seqrecord_list` after the nested loops of lines 92 to 106: the
loops append one chain record per chain, iterating models then chains in
order, so the final list is the in-order flattening. -/
def structureChainRecords (struct_name desc : String) (s : Structure) : List SeqRecord :=
  s.models.flatMap (fun m => m.chains.map (chainRecordOfChain struct_name desc m.id))

/-- `peptide_seqrecord_list` after the nested loops of lines 92 to 106: the
in-order flattening of every chain's peptide records. -/
def structurePeptideRecords (struct_name desc : String) (s : Structure) : List SeqRecord :=
  s.models.flatMap (fun m => m.chains.flatMap (peptideRecordsOfChain struct_name desc m.id))

/-- The success payload of `write_seqs`: the two output paths of lines 108
to 111 (`SeqIO.write` opens them in write mode, replacing existing files)
and the two record lists written to them. -/
structure FastaOutput where
  chainsPath : String
  peptidesPath : String
  chainRecords : List SeqRecord
  peptideRecords : List SeqRecord

/-- Observable outcome of one `write_seqs(filename)` call: early return with
a line on standard error when both parsers fail (no files written), an
uncaught exception escaping the call, or the two FASTA files. -/
inductive Outcome where
  | parseError (stderrLine : String)
  | raised
  | ok (out : FastaOutput)

/-- The standard-error line of struct2seq.py line 79. -/
def errorLine (filename : String) : String :=
  "ERROR: File " ++ filename ++ " is not a proper/supported protein structure file.\n"

/-- Lines 108 to 111: output paths from `os.path.splitext(filename)[0]` and
the two record lists for the given structure. -/
def mkOutput (filename struct_name description : String) (s : Structure) : FastaOutput :=
  { chainsPath := (splitext filename).1 ++ "_chains.fasta"
    peptidesPath := (splitext filename).1 ++ "_peptides.fasta"
    chainRecords := structureChainRecords struct_name description s
    peptideRecords := structurePeptideRecords struct_name description s }

/-- Lines 88 to 111 given the extracted metadata triple: format the
description (raising on a non-float resolution, before any record or file is
produced), then build and write the records. -/
def finishWrite (filename struct_name : String) (s : Structure)
    (name organism resolution : PyVal) : Outcome :=
  match format_description name organism resolution with
  | Except.error _ => Outcome.raised
  | Except.ok description => Outcome.ok (mkOutput filename struct_name description s)

/-- Embedding of `write_seqs(filename)` (lines 63 to 111), parameterised by
the trial-parse outcome of the external parsers.  On double parse failure
the function writes the error line and returns; on a PDB parse the header
extractor runs (its `TypeError` escapes uncaught); then the description is
formatted (a `TypeError` on a non-float resolution escapes uncaught) and the
records are built and written. -/
def write_seqs (filename : String) (pr : ParseResult) : Outcome :=
  let struct_name := structName filename
  match pr with
  | ParseResult.bothFail => Outcome.parseError (errorLine filename)
  | ParseResult.pdbOk s =>
    match get_info_from_header s.header with
    | Except.error _ => Outcome.raised
    | Except.ok t => finishWrite filename struct_name s t.1 t.2.1 t.2.2
  | ParseResult.cifOk s cif_dict =>
    let t := get_info_from_cif_dict cif_dict
    finishWrite filename struct_name s t.1 t.2.1 t.2.2

/-- Embedding of the loop of `main` (lines 123 to 124): process the input
files in order; a `write_seqs` call that returns (normally or after its own
error report) is followed by the next file, while an uncaught exception
aborts the batch. -/
def mainRun : List (String × ParseResult) → List Outcome
  | [] => []
  | (f, pr) :: rest =>
    match write_seqs f pr with
    | Outcome.raised => [Outcome.raised]
    | o => o :: mainRun rest

/-- Helper for `wrapSeq`: `k` is the room left on the current line and
`acc` the reversed current line. -/
def wrapAux : List Char → Nat → List Char → List (List Char)
  | [], _, acc => if acc.isEmpty then [] else [acc.reverse]
  | c :: cs, Nat.succ k, acc => wrapAux cs k (c :: acc)
  | c :: cs, 0, acc => acc.reverse :: wrapAux cs 59 [c]

/-- Split a character list into consecutive blocks of sixty, the line width
of Biopython's FASTA writer. -/
def wrapSeq (cs : List Char) : List (List Char) :=
  wrapAux cs 60 []

/-- Serialization of one record by Biopython's FASTA writer: a title line
joining id and description (the description never starts with the id here,
since it starts with a bar), then the sequence wrapped at sixty columns. -/
def recordToFasta (r : SeqRecord) : String :=
  ">" ++ r.id ++ " " ++ r.description ++ "\n"
    ++ String.join ((wrapSeq r.seq.toList).map (fun l => String.mk l ++ "\n"))

/-- The byte content `SeqIO.write` produces for a record list. -/
def fastaFile (rs : List SeqRecord) : String :=
  String.join (rs.map recordToFasta)

/-- The bytes written to the two output files, when any are written. -/
def outcomeBytes : Outcome → Option (String × String)
  | Outcome.ok out => some (fastaFile out.chainRecords, fastaFile out.peptideRecords)
  | _ => Option.none

/-- Big-step relation of one `write_seqs` call: one rule per control path of
lines 63 to 111.  `write_seqs` is its functional form; the relation lets
determinism of the pipeline be stated as functionality over two runs. -/
inductive WriteSeqsRel : String → ParseResult → Outcome → Prop where
  | bothFail (f : String) :
      WriteSeqsRel f ParseResult.bothFail (Outcome.parseError (errorLine f))
  | pdbHeaderRaise (f : String) (s : Structure)
      (h : get_info_from_header s.header = Except.error ()) :
      WriteSeqsRel f (ParseResult.pdbOk s) Outcome.raised
  | pdbOk (f : String) (s : Structure) (t : PyVal × PyVal × PyVal)
      (h : get_info_from_header s.header = Except.ok t) :
      WriteSeqsRel f (ParseResult.pdbOk s) (finishWrite f (structName f) s t.1 t.2.1 t.2.2)
  | cifOk (f : String) (s : Structure) (d : PyDict) :
      WriteSeqsRel f (ParseResult.cifOk s d)
        (finishWrite f (structName f) s (get_info_from_cif_dict d).1
          (get_info_from_cif_dict d).2.1 (get_info_from_cif_dict d).2.2)

/-- The relation covers the function: every call is a run of the relation. -/
theorem writeSeqsRel_total (f : String) (pr : ParseResult) :
    WriteSeqsRel f pr (write_seqs f pr) := by
  cases pr with
  | bothFail => exact WriteSeqsRel.bothFail f
  | pdbOk s =>
    cases hh : get_info_from_header s.header with
    | error e =>
      cases e
      have hw : write_seqs f (ParseResult.pdbOk s) = Outcome.raised := by
        simp [write_seqs, hh]
      rw [hw]
      exact WriteSeqsRel.pdbHeaderRaise f s hh
    | ok t =>
      have hw : write_seqs f (ParseResult.pdbOk s)
          = finishWrite f (structName f) s t.1 t.2.1 t.2.2 := by
        simp [write_seqs, hh]
      rw [hw]
      exact WriteSeqsRel.pdbOk f s t hh
  | cifOk s d => exact WriteSeqsRel.cifOk f s d

/-- The sequences of the peptide records built for one chain are exactly the
peptide sequences the builder yielded, in order. -/
theorem peptide_record_seqs (sn d : String) (mid : Int) (c : Chain) :
    (peptideRecordsOfChain sn d mid c).map SeqRecord.seq = c.peptides := by
  unfold peptideRecordsOfChain
  rw [List.map_map]
  have h : (SeqRecord.seq ∘ fun p : Nat × String =>
      SeqRecord.mk (baseId sn mid c.id ++ "." ++ toString p.1) p.2 d) = Prod.snd := by
    funext p
    rfl
  rw [h, List.enum_map_snd]

/-- The ids of the peptide records built for one chain are
`<base_id>.<i>` for `i` ranging over `0, ..., count - 1` in order. -/
theorem peptide_record_ids (sn d : String) (mid : Int) (c : Chain) :
    (peptideRecordsOfChain sn d mid c).map SeqRecord.id
      = (List.range c.peptides.length).map
          (fun i => baseId sn mid c.id ++ "." ++ toString i) := by
  unfold peptideRecordsOfChain
  rw [List.map_map, ← List.enum_map_fst c.peptides, List.map_map]
  rfl

/-- Inversion of a successful `write_seqs` run: the output is built by
`mkOutput` from the input filename, the `struct_name` of line 66, a
description produced by the format of line 88 on a float resolution, and
the parsed structure. -/
theorem write_seqs_ok_inv (f : String) (pr : ParseResult) (out : FastaOutput)
    (h : write_seqs f pr = Outcome.ok out) :
    ∃ s name organism q, out = mkOutput f (structName f) (descString name organism q) s := by
  cases pr with
  | bothFail => simp [write_seqs] at h
  | pdbOk s =>
    cases hh : get_info_from_header s.header with
    | error e => simp [write_seqs, hh] at h
    | ok t =>
      simp only [write_seqs, hh] at h
      cases hr : t.2.2 with
      | float q =>
        simp only [finishWrite, format_description, hr, Outcome.ok.injEq] at h
        exact ⟨s, t.1, t.2.1, q, h.symm⟩
      | none => simp [finishWrite, format_description, hr] at h
      | str v => simp [finishWrite, format_description, hr] at h
      | dict ds => simp [finishWrite, format_description, hr] at h
  | cifOk s dct =>
    simp only [write_seqs] at h
    cases hr : (get_info_from_cif_dict dct).2.2 with
    | float q =>
      simp only [finishWrite, format_description, hr, Outcome.ok.injEq] at h
      exact ⟨s, (get_info_from_cif_dict dct).1, (get_info_from_cif_dict dct).2.1, q, h.symm⟩
    | none => simp [finishWrite, format_description, hr] at h
    | str v => simp [finishWrite, format_description, hr] at h
    | dict ds => simp [finishWrite, format_description, hr] at h

/-- Membership in the chain record list comes from some model and chain of
the structure. -/
theorem mem_structureChainRecords (sn d : String) (s : Structure) (r : SeqRecord)
    (hr : r ∈ structureChainRecords sn d s) :
    ∃ m ∈ s.models, ∃ c ∈ m.chains, r = chainRecordOfChain sn d m.id c := by
  unfold structureChainRecords at hr
  rw [List.mem_flatMap] at hr
  obtain ⟨m, hm, hr⟩ := hr
  rw [List.mem_map] at hr
  obtain ⟨c, hc, hr⟩ := hr
  exact ⟨m, hm, c, hc, hr.symm⟩

/-- Membership in the peptide record list comes from some model and chain of
the structure. -/
theorem mem_structurePeptideRecords (sn d : String) (s : Structure) (r : SeqRecord)
    (hr : r ∈ structurePeptideRecords sn d s) :
    ∃ m ∈ s.models, ∃ c ∈ m.chains, r ∈ peptideRecordsOfChain sn d m.id c := by
  unfold structurePeptideRecords at hr
  rw [List.mem_flatMap] at hr
  obtain ⟨m, hm, hr⟩ := hr
  rw [List.mem_flatMap] at hr
  obtain ⟨c, hc, hr⟩ := hr
  exact ⟨m, hm, c, hc, hr⟩

/-- An element's image block appears contiguously inside a flat-mapped
list. -/
theorem flatMap_decomp {α β : Type} (g : α → List β) (l : List α) (a : α)
    (ha : a ∈ l) : ∃ pre post, l.flatMap g = pre ++ g a ++ post := by
  induction l with
  | nil => cases ha
  | cons x xs ih =>
    rcases List.mem_cons.mp ha with hx | hxs
    · subst hx
      exact ⟨[], xs.flatMap g, by simp⟩
    · obtain ⟨p, q, hpq⟩ := ih hxs
      exact ⟨g x ++ p, q, by simp [hpq]⟩

/-- The peptide records of a chain of the structure appear contiguously in
the full peptide record list. -/
theorem peptideRecords_block (sn d : String) (s : Structure) (m : SModel) (c : Chain)
    (hm : m ∈ s.models) (hc : c ∈ m.chains) :
    ∃ pre post, structurePeptideRecords sn d s
      = pre ++ peptideRecordsOfChain sn d m.id c ++ post := by
  obtain ⟨p1, q1, h1⟩ :=
    flatMap_decomp (peptideRecordsOfChain sn d m.id) m.chains c hc
  obtain ⟨p0, q0, h0⟩ :=
    flatMap_decomp (fun m => m.chains.flatMap (peptideRecordsOfChain sn d m.id)) s.models m hm
  refine ⟨p0 ++ p1, q1 ++ q0, ?_⟩
  unfold structurePeptideRecords
  rw [h0, h1]
  simp [List.append_assoc]

/-- Every record `mkOutput` builds carries the description it was given. -/
theorem mkOutput_descriptions (f sn d : String) (s : Structure) :
    (∀ r ∈ (mkOutput f sn d s).chainRecords, r.description = d)
      ∧ ∀ r ∈ (mkOutput f sn d s).peptideRecords, r.description = d := by
  constructor
  · intro r hr
    obtain ⟨m, _, c, _, hr⟩ := mem_structureChainRecords sn d s r hr
    rw [hr]
    rfl
  · intro r hr
    obtain ⟨m, _, c, _, hr⟩ := mem_structurePeptideRecords sn d s r hr
    unfold peptideRecordsOfChain at hr
    rw [List.mem_map] at hr
    obtain ⟨p, _, hr⟩ := hr
    rw [← hr]

/-- The relation determines the function: every run of the relation returns
the value of `write_seqs`. -/
theorem writeSeqsRel_fun (f : String) (pr : ParseResult) (o : Outcome)
    (h : WriteSeqsRel f pr o) : o = write_seqs f pr := by
  cases h with
  | bothFail => rfl
  | pdbHeaderRaise s hh => simp [write_seqs, hh]
  | pdbOk s t ht => simp [write_seqs, ht]
  | cifOk s dct => rfl

/-- A sample parsed structure used by the witnesses: one model of id 0 with
one chain `A` whose peptide builder yields sequences `AC` and `DE`. -/
def sampleStructure : Structure := ⟨[⟨0, [⟨"A", ["AC", "DE"]⟩]⟩], []⟩

/-- Claim C1 (divergence witness): when the PDB header has no `resolution`
key, the extracted resolution is Python `None` (the raw `.get` result), not
the claimed sentinel `-1.0`; on the mmCIF path the claim holds: an absent or
non-numeric `_reflns.d_resolution_high` leaves the `-1.0` default. -/
theorem claim1_resolution_default_divergence :
    get_info_from_header [] = Except.ok (PyVal.none, PyVal.str "", PyVal.none)
      ∧ get_info_from_cif_dict [] = (PyVal.none, PyVal.none, PyVal.float negOne)
      ∧ get_info_from_cif_dict [("_reflns.d_resolution_high", PyVal.str "NOT A NUMBER")]
          = (PyVal.none, PyVal.none, PyVal.float negOne) :=
  ⟨rfl, rfl, rfl⟩

/-- Claim C2: for every successful run, every chain-level record is the
record of some chain, its sequence is the concatenation in order of the
sequences of that chain's peptide-level records, and those peptide records
appear as one contiguous block of the peptide output, so no residue is
added or dropped. -/
theorem claim2_chain_record_is_peptide_concat (f : String) (pr : ParseResult)
    (out : FastaOutput) (h : write_seqs f pr = Outcome.ok out) (r : SeqRecord)
    (hr : r ∈ out.chainRecords) :
    ∃ sn d mid c, r = chainRecordOfChain sn d mid c
      ∧ r.seq = String.join ((peptideRecordsOfChain sn d mid c).map SeqRecord.seq)
      ∧ ∃ pre post, out.peptideRecords = pre ++ peptideRecordsOfChain sn d mid c ++ post := by
  obtain ⟨s, n, o, q, hout⟩ := write_seqs_ok_inv f pr out h
  subst hout
  obtain ⟨m, hm, c, hc, hrc⟩ :=
    mem_structureChainRecords (structName f) (descString n o q) s r hr
  refine ⟨structName f, descString n o q, m.id, c, hrc, ?_, ?_⟩
  · rw [hrc, peptide_record_seqs]
    rfl
  · exact peptideRecords_block (structName f) (descString n o q) s m c hm hc

/-- Witness for claim C2 at a concrete mmCIF-parsed input with two
peptides `AC` and `DE` in chain `A`. -/
theorem claim2_witness :
    ∃ sn d mid c,
      (⟨"t.0_A", "ACDE", "| None | None | Resolution -1.00 A"⟩ : SeqRecord)
          = chainRecordOfChain sn d mid c
        ∧ (⟨"t.0_A", "ACDE", "| None | None | Resolution -1.00 A"⟩ : SeqRecord).seq
            = String.join ((peptideRecordsOfChain sn d mid c).map SeqRecord.seq)
        ∧ ∃ pre post,
            (mkOutput "t.cif" "t" (descString PyVal.none PyVal.none negOne)
                sampleStructure).peptideRecords
              = pre ++ peptideRecordsOfChain sn d mid c ++ post :=
  claim2_chain_record_is_peptide_concat "t.cif" (ParseResult.cifOk sampleStructure [])
    _ rfl _ (List.Mem.head _)

/-- Claim C3 (divergence witness): on a header whose `source` value is a
dict without key `1` (and with no top-level `organism_scientific`), the
extractor evaluates the Python expression `'organism_scientific' in None`
and raises `TypeError`; the exception escapes `write_seqs` uncaught. -/
theorem claim3_header_extraction_raises :
    get_info_from_header [("source", PyVal.dict [])] = Except.error ()
      ∧ write_seqs "x.pdb" (ParseResult.pdbOk ⟨[], [("source", PyVal.dict [])]⟩)
          = Outcome.raised :=
  ⟨rfl, rfl⟩

/-- Claim C4 (divergence witness): with the `name` field absent the
extracted name is Python `None`, not the claimed empty string, on both the
PDB-header path and the mmCIF path; the mmCIF organism is likewise `None`
when absent (only the PDB-path organism keeps the `""` default). -/
theorem claim4_name_organism_default_divergence :
    get_info_from_header [] = Except.ok (PyVal.none, PyVal.str "", PyVal.none)
      ∧ (get_info_from_cif_dict []).1 = PyVal.none
      ∧ (get_info_from_cif_dict []).2.1 = PyVal.none :=
  ⟨rfl, rfl, rfl⟩

/-- Claim C5: when both trial parses fail, `write_seqs` writes exactly the
claimed line to standard error, produces no output files, raises nothing,
and the batch loop of `main` continues with the remaining files. -/
theorem claim5_parse_failure_reported_and_batch_continues (f : String)
    (rest : List (String × ParseResult)) :
    write_seqs f ParseResult.bothFail
        = Outcome.parseError
            ("ERROR: File " ++ f ++ " is not a proper/supported protein structure file.\n")
      ∧ (∀ out, write_seqs f ParseResult.bothFail ≠ Outcome.ok out)
      ∧ mainRun ((f, ParseResult.bothFail) :: rest)
          = Outcome.parseError (errorLine f) :: mainRun rest := by
  refine ⟨rfl, ?_, rfl⟩
  intro out hout
  simp [write_seqs] at hout

/-- Claim C6: every successful run derives its records from `struct_name`,
the base name of the input with directory and extension removed; the chain
record of a chain has id `<struct_name>.<model_id>_<chain_id>` and its
peptide records have ids `<base_id>.<i>` for a dense zero-based `i` in
discovery order. -/
theorem claim6_record_ids (f : String) (pr : ParseResult) (out : FastaOutput)
    (h : write_seqs f pr = Outcome.ok out) (sn d : String) (mid : Int) (c : Chain) :
    (∃ s d', out = mkOutput f (structName f) d' s)
      ∧ structName f = (splitext (basename f)).1
      ∧ (chainRecordOfChain sn d mid c).id = baseId sn mid c.id
      ∧ (peptideRecordsOfChain sn d mid c).map SeqRecord.id
          = (List.range c.peptides.length).map
              (fun i => baseId sn mid c.id ++ "." ++ toString i) := by
  obtain ⟨s, n, o, q, hout⟩ := write_seqs_ok_inv f pr out h
  exact ⟨⟨s, descString n o q, hout⟩, rfl, rfl, peptide_record_ids sn d mid c⟩

/-- Witness for claim C6 at a concrete mmCIF-parsed input `d/t.cif` with
one chain of two peptides. -/
theorem claim6_witness :
    (∃ s d', mkOutput "d/t.cif" "t" (descString PyVal.none PyVal.none negOne) sampleStructure
        = mkOutput "d/t.cif" (structName "d/t.cif") d' s)
      ∧ structName "d/t.cif" = (splitext (basename "d/t.cif")).1
      ∧ (chainRecordOfChain "t" "desc" 0 ⟨"A", ["AC", "DE"]⟩).id = baseId "t" 0 "A"
      ∧ (peptideRecordsOfChain "t" "desc" 0 ⟨"A", ["AC", "DE"]⟩).map SeqRecord.id
          = (List.range (["AC", "DE"] : List String).length).map
              (fun i => baseId "t" 0 "A" ++ "." ++ toString i) :=
  claim6_record_ids "d/t.cif" (ParseResult.cifOk sampleStructure []) _ rfl
    "t" "desc" 0 ⟨"A", ["AC", "DE"]⟩

/-- Claim C7 counterexample: a successfully PDB-parsed input whose header
lacks a resolution does not render `Resolution -1.00 A`; the run raises
while formatting `None` with the `.2f` code and produces no records at
all. -/
theorem claim7_counterexample :
    write_seqs "t.pdb" (ParseResult.pdbOk ⟨[⟨0, [⟨"A", ["ACDE"]⟩]⟩], []⟩)
      = Outcome.raised :=
  rfl

/-- Claim C7 as amended: every record a run produces carries one shared
description of the shape `| <name> | <organism> | Resolution <res> A` with
the resolution rendered to two decimal places; resolution `2.0` renders as
`Resolution 2.00 A`; on the mmCIF path an unknown resolution keeps the
sentinel `-1.0` and renders as `Resolution -1.00 A` (while on the PDB path
an absent resolution raises instead of rendering). -/
theorem claim7_description_shared_and_formatted (f : String) (pr : ParseResult)
    (out : FastaOutput) (h : write_seqs f pr = Outcome.ok out) :
    (∃ d, (∀ r ∈ out.chainRecords, r.description = d)
        ∧ (∀ r ∈ out.peptideRecords, r.description = d)
        ∧ ∃ n o q, d = descString n o q)
      ∧ descString (PyVal.str "N") (PyVal.str "O") ⟨2, 0⟩ = "| N | O | Resolution 2.00 A"
      ∧ (get_info_from_cif_dict []).2.2 = PyVal.float negOne
      ∧ descString PyVal.none PyVal.none negOne = "| None | None | Resolution -1.00 A" := by
  obtain ⟨s, n, o, q, hout⟩ := write_seqs_ok_inv f pr out h
  subst hout
  exact ⟨⟨descString n o q,
      (mkOutput_descriptions f (structName f) (descString n o q) s).1,
      (mkOutput_descriptions f (structName f) (descString n o q) s).2,
      n, o, q, rfl⟩, rfl, rfl, rfl⟩

/-- Witness for the amended claim C7 at a concrete mmCIF-parsed input with
an empty field dict, whose description is `| None | None | Resolution -1.00
A`. -/
theorem claim7_witness :
    (∃ d, (∀ r ∈ (mkOutput "t.cif" "t" (descString PyVal.none PyVal.none negOne)
            sampleStructure).chainRecords, r.description = d)
        ∧ (∀ r ∈ (mkOutput "t.cif" "t" (descString PyVal.none PyVal.none negOne)
            sampleStructure).peptideRecords, r.description = d)
        ∧ ∃ n o q, d = descString n o q)
      ∧ descString (PyVal.str "N") (PyVal.str "O") ⟨2, 0⟩ = "| N | O | Resolution 2.00 A"
      ∧ (get_info_from_cif_dict []).2.2 = PyVal.float negOne
      ∧ descString PyVal.none PyVal.none negOne = "| None | None | Resolution -1.00 A" :=
  claim7_description_shared_and_formatted "t.cif" (ParseResult.cifOk sampleStructure []) _ rfl

/-- Claim C8: the per-file pipeline is deterministic: two runs of
`write_seqs` on the same filename and the same parse outcome produce the
same result, and in particular byte-identical output file contents. -/
theorem claim8_deterministic (f : String) (pr : ParseResult) (o1 o2 : Outcome)
    (h1 : WriteSeqsRel f pr o1) (h2 : WriteSeqsRel f pr o2) :
    o1 = o2 ∧ outcomeBytes o1 = outcomeBytes o2 := by
  have e1 := writeSeqsRel_fun f pr o1 h1
  have e2 := writeSeqsRel_fun f pr o2 h2
  subst e1
  subst e2
  exact ⟨rfl, rfl⟩

/-- Witness for claim C8: two runs on a file both parsers reject give the
same outcome and the same (absent) output bytes. -/
theorem claim8_witness :
    Outcome.parseError (errorLine "a.pdb") = Outcome.parseError (errorLine "a.pdb")
      ∧ outcomeBytes (Outcome.parseError (errorLine "a.pdb"))
          = outcomeBytes (Outcome.parseError (errorLine "a.pdb")) :=
  claim8_deterministic "a.pdb" ParseResult.bothFail _ _
    (WriteSeqsRel.bothFail "a.pdb") (WriteSeqsRel.bothFail "a.pdb")

/-- Claim C9: a successful run writes exactly the two files
`<base>_chains.fasta` and `<base>_peptides.fasta`, where `<base>` is the
input path with its extension removed (so they land in the input's
directory). -/
theorem claim9_output_paths (f : String) (pr : ParseResult) (out : FastaOutput)
    (h : write_seqs f pr = Outcome.ok out) :
    out.chainsPath = (splitext f).1 ++ "_chains.fasta"
      ∧ out.peptidesPath = (splitext f).1 ++ "_peptides.fasta" := by
  obtain ⟨s, n, o, q, hout⟩ := write_seqs_ok_inv f pr out h
  subst hout
  exact ⟨rfl, rfl⟩

/-- Witness for claim C9 at the concrete input `d/t.cif`. -/
theorem claim9_witness :
    (mkOutput "d/t.cif" "t" (descString PyVal.none PyVal.none negOne)
        sampleStructure).chainsPath = (splitext "d/t.cif").1 ++ "_chains.fasta"
      ∧ (mkOutput "d/t.cif" "t" (descString PyVal.none PyVal.none negOne)
          sampleStructure).peptidesPath = (splitext "d/t.cif").1 ++ "_peptides.fasta" :=
  claim9_output_paths "d/t.cif" (ParseResult.cifOk sampleStructure []) _ rfl

/-- Claim C10: a chain for which the peptide builder yields no peptides
still gets a chain-level record, with the empty sequence, and contributes no
peptide records; the chain output has exactly one record per chain of the
structure, so no chain is skipped. -/
theorem claim10_empty_chain_still_emitted (sn d : String) (mid : Int) (cid : String)
    (s : Structure) :
    chainRecordOfChain sn d mid ⟨cid, []⟩ = ⟨baseId sn mid cid, "", d⟩
      ∧ peptideRecordsOfChain sn d mid ⟨cid, []⟩ = []
      ∧ (structureChainRecords sn d s).length
          = (s.models.map (fun m => m.chains.length)).sum := by
  refine ⟨rfl, rfl, ?_⟩
  unfold structureChainRecords
  rw [List.length_flatMap]
  have hcomp : (List.length ∘ fun m : SModel => List.map (chainRecordOfChain sn d m.id) m.chains)
      = fun m : SModel => m.chains.length := by
    funext m
    simp
  rw [hcomp]

end Struct2Seq
